import Mathlib

/-
  Shallow embedding of the node-android-logging library (src/index.js).

  The module keeps all of its state in properties of `module.exports`;
  we model that state as the structure `LogState` and every exported
  function as an explicit state transformer.  Functions that can throw
  a JavaScript exception are modelled with `Except (String × LogState)`,
  the error carrying the exception message together with the state at
  the moment of the throw (JavaScript mutations performed before the
  throw are visible afterwards, so the error must carry them).

  The fields `stdOutLevel`, `stdErrLevel` and `queueLevel` model the
  identically named properties read by `disableStdout`, `disableStderr`
  and `disableQueue` (lines 49, 79, 91 of index.js).  No code in the
  module ever assigns them — the real threshold fields are
  `_stdoutLevel`, `_stderrLevel` and `_queueLevel` — so in every
  reachable state they are `none`; they are kept in the model because
  the disable functions test them.

  Console output is modelled by accumulating the lines written with
  `console.log` / `console.error` in the fields `consoleOut` /
  `consoleErr`.
-/

structure LogState where
  _enableStdout : Option Bool
  _stdoutLevel  : Option Nat
  stdOutLevel   : Option Nat
  _enableStderr : Option Bool
  _stderrLevel  : Option Nat
  stdErrLevel   : Option Nat
  _enableQueue  : Option Bool
  _queueLevel   : Option Nat
  queueLevel    : Option Nat
  _fileFuncPad  : Option Nat
  _linePad      : Option Nat
  _queue        : Option (List String)
  consoleOut    : List String
  consoleErr    : List String
  deriving Repr, DecidableEq

/-- The fresh module state: no property of `module.exports` has been set. -/
def initState : LogState :=
  { _enableStdout := none, _stdoutLevel := none, stdOutLevel := none
  , _enableStderr := none, _stderrLevel := none, stdErrLevel := none
  , _enableQueue := none, _queueLevel := none, queueLevel := none
  , _fileFuncPad := none, _linePad := none, _queue := none
  , consoleOut := [], consoleErr := [] }

/-- `module.exports._levels` (index.js line 370). -/
def _levels : List String := ["Fatal", "Error", "Warn", "Info", "Debug", "Trace"]

/-- The linear scan inside `_getIntLevel` (index.js lines 376-380). -/
def levelScan (level : String) : List String → Nat → Option Nat
  | [], _ => none
  | l :: rest, i => if l = level then some i else levelScan level rest (i + 1)

/-- `module.exports._getIntLevel` (index.js lines 372-383): returns the index
of `level` in `_levels`, or throws `"Invalid log level supplied: " + level`. -/
def _getIntLevel (level : String) : Except String Nat :=
  match levelScan level _levels 0 with
  | some i => Except.ok i
  | none => Except.error ("Invalid log level supplied: " ++ level)

/-- `module.exports.enableStdout` (index.js lines 35-38).  The enabled flag is
assigned first; the rank lookup on the next line can throw, in which case the
flag assignment has already happened and survives. -/
def enableStdout (level : String) (s : LogState) :
    Except (String × LogState) LogState :=
  let s1 := { s with _enableStdout := some true }
  match _getIntLevel level with
  | Except.ok r => Except.ok { s1 with _stdoutLevel := some r }
  | Except.error e => Except.error (e, s1)

/-- `module.exports.enableStderr` (index.js lines 62-65). -/
def enableStderr (level : String) (s : LogState) :
    Except (String × LogState) LogState :=
  let s1 := { s with _enableStderr := some true }
  match _getIntLevel level with
  | Except.ok r => Except.ok { s1 with _stderrLevel := some r }
  | Except.error e => Except.error (e, s1)

/-- `module.exports.enableQueue` (index.js lines 84-87). -/
def enableQueue (level : String) (s : LogState) :
    Except (String × LogState) LogState :=
  let s1 := { s with _enableQueue := some true }
  match _getIntLevel level with
  | Except.ok r => Except.ok { s1 with _queueLevel := some r }
  | Except.error e => Except.error (e, s1)

/-- `module.exports.disableStdout` (index.js lines 47-52).  The guard reads the
property `stdOutLevel` (not `_stdoutLevel`).  `_getIntLevel "Debug"` always
succeeds, so the JavaScript assignment of its result is modelled by assigning
its `Except.toOption` (which is `some 4`). -/
def disableStdout (s : LogState) : LogState :=
  let s1 := { s with _enableStdout := some false }
  if s1.stdOutLevel = none then
    { s1 with _stdoutLevel := (_getIntLevel "Debug").toOption }
  else s1

/-- `module.exports.disableStderr` (index.js lines 77-82).  The guard reads the
property `stdErrLevel` (not `_stderrLevel`). -/
def disableStderr (s : LogState) : LogState :=
  let s1 := { s with _enableStderr := some false }
  if s1.stdErrLevel = none then
    { s1 with _stderrLevel := (_getIntLevel "Debug").toOption }
  else s1

/-- `module.exports.disableQueue` (index.js lines 89-94).  The guard reads the
property `queueLevel` (not `_queueLevel`). -/
def disableQueue (s : LogState) : LogState :=
  let s1 := { s with _enableQueue := some false }
  if s1.queueLevel = none then
    { s1 with _queueLevel := (_getIntLevel "Debug").toOption }
  else s1

/-- `module.exports.emptyQueue` (index.js lines 96-100): truncates the queue
array when it exists, no-op when it was never initialized. -/
def emptyQueue (s : LogState) : LogState :=
  match s._queue with
  | none => s
  | some _ => { s with _queue := some [] }

/-- `module.exports.setPadding` (index.js lines 102-105). -/
def setPadding (fileFuncPadLength linePadLength : Nat) (s : LogState) : LogState :=
  { s with _fileFuncPad := some fileFuncPadLength, _linePad := some linePadLength }

/-- `module.exports.setDefaults` (index.js lines 168-174).  The
`enableStderr("Debug")` call always succeeds. -/
def setDefaults (s : LogState) : Except (String × LogState) LogState := do
  let s1 ← enableStderr "Debug" s
  Except.ok (setPadding 30 5 (disableQueue (disableStdout s1)))

/-- `module.exports.checkDefaults` (index.js lines 131-166). -/
def checkDefaults (s : LogState) : Except (String × LogState) LogState :=
  if s._enableStdout = none ∧ s._enableStderr = none ∧ s._enableQueue = none then
    setDefaults s
  else do
    let s1 ← if s._enableStdout = none then Except.ok (disableStdout s)
             else if s._stdoutLevel = none then enableStdout "Debug" s
             else Except.ok s
    let s2 ← if s1._enableStderr = none then Except.ok (disableStderr s1)
             else if s1._stderrLevel = none then enableStderr "Debug" s1
             else Except.ok s1
    if s2._enableQueue = none then Except.ok (disableQueue s2)
    else if s2._queueLevel = none then enableQueue "Debug" s2
    else Except.ok s2

/-- `module.exports.peek` (index.js lines 176-184): returns the oldest retained
message without removing it (the body performs no mutation, so the state
component of the result is the input state). -/
def peek (s : LogState) : String × LogState :=
  match s._queue with
  | none => ("", s)
  | some [] => ("", s)
  | some (m :: _) => (m, s)

/-- `module.exports.pop` (index.js lines 186-194): `Array.prototype.shift`
removes and returns the first element. -/
def pop (s : LogState) : String × LogState :=
  match s._queue with
  | none => ("", s)
  | some [] => ("", s)
  | some (m :: rest) => (m, { s with _queue := some rest })

/-
  Values passed to the logging entry points.  JavaScript's dynamic values are
  modelled by an inductive type carrying exactly the distinctions that
  `_convertToString` inspects: `undefined`, `null`, booleans, strings,
  numbers, arrays, plain objects (a list of enumerable string-keyed fields),
  Error-like objects (carrying their `.stack` text) and a catch-all for the
  remaining types (functions, symbols, ...) tagged with what `typeof` and
  `Object.prototype.toString.call` return for them.
-/
inductive JsValue where
  | undef
  | null
  | bool (b : Bool)
  | str (s : String)
  | num (n : Int)
  | arr (elems : List JsValue)
  | obj (fields : List (String × JsValue))
  | errObj (stack : String)
  | other (typeofTag : String) (classTag : String)
  deriving Repr

/-- What the JavaScript `typeof` operator returns for a value. -/
def typeofVal : JsValue → String
  | JsValue.undef => "undefined"
  | JsValue.null => "object"
  | JsValue.bool _ => "boolean"
  | JsValue.str _ => "string"
  | JsValue.num _ => "number"
  | JsValue.arr _ => "object"
  | JsValue.obj _ => "object"
  | JsValue.errObj _ => "object"
  | JsValue.other t _ => t

/-- What `Object.prototype.toString.call` returns for a value. -/
def protoToString : JsValue → String
  | JsValue.undef => "[object Undefined]"
  | JsValue.null => "[object Null]"
  | JsValue.bool _ => "[object Boolean]"
  | JsValue.str _ => "[object String]"
  | JsValue.num _ => "[object Number]"
  | JsValue.arr _ => "[object Array]"
  | JsValue.obj _ => "[object Object]"
  | JsValue.errObj _ => "[object Error]"
  | JsValue.other _ c => c

def padSpaces (n : Nat) : String := String.mk (List.replicate n ' ')

/-- JSON string escaping as performed by `JSON.stringify` (the cases relevant
to this library; a real newline becomes the two characters backslash-n, which
`_stringify` later turns back into a newline). -/
def escapeChar (c : Char) : String :=
  if c = '\\' then "\\\\"
  else if c = '"' then "\\\""
  else if c = '\n' then "\\n"
  else if c = '\r' then "\\r"
  else if c = '\t' then "\\t"
  else String.mk [c]

def escapeStr (s : String) : String := String.join (s.data.map escapeChar)

/-- Object fields whose value is `undefined` or a function/symbol are omitted
by `JSON.stringify`. -/
def isSkippable : JsValue → Bool
  | JsValue.undef => true
  | JsValue.other _ _ => true
  | _ => false

/-- Indentation produced by `JSON.stringify(-, null, 2)` at nesting `depth`. -/
def pad2 (depth : Nat) : String := padSpaces (2 * depth)

mutual

/-- `circularJSON.stringify(v, null, 2)` for the cycle-free values of
`JsValue` (an inductive value cannot alias itself, so the circular-reference
handling of the `circular-json` package never fires and its output matches
`JSON.stringify(v, null, 2)`).  Inside arrays, `undefined` and functions
serialize as `null`; an Error instance has no enumerable own properties and
serializes as an empty object. -/
def serVal (depth : Nat) : JsValue → String
  | JsValue.undef => "null"
  | JsValue.null => "null"
  | JsValue.bool b => if b then "true" else "false"
  | JsValue.num n => toString n
  | JsValue.str s => "\"" ++ escapeStr s ++ "\""
  | JsValue.errObj _ => "\x7b\x7d"
  | JsValue.other _ _ => "null"
  | JsValue.arr xs =>
    match serElems (depth + 1) xs with
    | [] => "[]"
    | l => "[\n" ++ String.intercalate ",\n" l ++ "\n" ++ pad2 depth ++ "]"
  | JsValue.obj fs =>
    match serFields (depth + 1) fs with
    | [] => "\x7b\x7d"
    | l => "\x7b\n" ++ String.intercalate ",\n" l ++ "\n" ++ pad2 depth ++ "\x7d"

/-- Serialized array elements, one string per element. -/
def serElems (depth : Nat) : List JsValue → List String
  | [] => []
  | v :: rest => (pad2 depth ++ serVal depth v) :: serElems depth rest

/-- Serialized object fields (skippable fields omitted). -/
def serFields (depth : Nat) : List (String × JsValue) → List String
  | [] => []
  | (k, v) :: rest =>
    if isSkippable v then serFields depth rest
    else (pad2 depth ++ "\"" ++ escapeStr k ++ "\": " ++ serVal depth v)
      :: serFields depth rest

end

/-- `module.exports._stringify` (index.js lines 286-288):
`circularJSON.stringify(arg, null, 2).replace(/\\n/g, "\n")`. -/
def _stringify (arg : JsValue) : String :=
  (serVal 0 arg).replace "\\n" "\n"

/-- The replacement of every run of `[\r\n]+` by `"\n" ++ indentSize` spaces
performed by the regex in `indent` (index.js line 325).  The boolean tracks
whether the previous character belonged to the current run. -/
def collapseRuns (rep : List Char) : List Char → Bool → List Char
  | [], _ => []
  | c :: cs, inRun =>
    if c = '\n' ∨ c = '\r' then
      (if inRun then [] else rep) ++ collapseRuns rep cs true
    else c :: collapseRuns rep cs false

/-- The file-local helper `indent` (index.js lines 312-329). -/
def indent (str : String) (indentSize : Nat) : String :=
  let sliceLength := if str.startsWith "\n" then 2 + indentSize else 2
  (String.mk
    (collapseRuns ("\n" ++ padSpaces indentSize).data ("\n " ++ str).data false)
    ).drop sliceLength

/-- `module.exports._convertToString` (index.js lines 331-368).  The branches
mirror the source's if/else chain; note that a `null` argument fails the
`arg != null` guard on line 344 and therefore reaches the final `else`, which
throws a `TypeError` — only `undefined` yields the empty string. -/
def _convertToString (arg : JsValue) : Except String String :=
  match arg with
  | JsValue.undef => Except.ok ""
  | JsValue.bool b => Except.ok (if b then "true" else "false")
  | JsValue.str s => Except.ok s
  | JsValue.num n => Except.ok (toString n)
  | JsValue.arr _ => Except.ok (indent ("\n" ++ _stringify arg) 4)
  | JsValue.obj _ => Except.ok (indent ("\n" ++ _stringify arg) 4)
  | JsValue.errObj stackText =>
    -- lines 347-354: the Error is replaced by a synthetic { error, stack }
    -- object before serialization
    let parts := stackText.splitOn "\n"
    let replaced := JsValue.obj
      [ ("error", JsValue.str (parts.headD ""))
      , ("stack", JsValue.arr ((parts.drop 1).map (fun each => JsValue.str each.trim))) ]
    Except.ok (indent ("\n" ++ _stringify replaced) 4)
  | JsValue.null =>
    Except.error (indent ("\nUnsupported type: " ++ _stringify (JsValue.obj
      [ ("arg", arg), ("type", JsValue.str (typeofVal arg))
      , ("toString", JsValue.str (protoToString arg)) ])) 4)
  | JsValue.other _ _ =>
    Except.error (indent ("\nUnsupported type: " ++ _stringify (JsValue.obj
      [ ("arg", arg), ("type", JsValue.str (typeofVal arg))
      , ("toString", JsValue.str (protoToString arg)) ])) 4)

/-- A parsed stack frame as produced by `_getStackTrace`. -/
structure Frame where
  file : String
  func : String
  line : String
  deriving Repr, DecidableEq

/-- The padded call-site record built on index.js lines 248-251. -/
structure CallSite where
  fileFunc : String
  line : String
  deriving Repr, DecidableEq

/-- The possible results of `_getFileLineFunc`: the padded call-site object,
a raw stack-frame object, or the JavaScript value `undefined`. -/
inductive FLFResult where
  | site (cs : CallSite)
  | frame (f : Frame)
  | undef
  deriving Repr, DecidableEq

/-- `_s.rpad(str, length)` from underscore.string: right-pad with spaces up to
`length`; a longer string is returned unchanged, and so is the string when the
length is `undefined`. -/
def rpad (str : String) : Option Nat → String
  | none => str
  | some n => if n ≤ str.length then str else str ++ padSpaces (n - str.length)

/-- `_s.lpad(str, length)` from underscore.string: left-pad with spaces. -/
def lpad (str : String) : Option Nat → String
  | none => str
  | some n => if n ≤ str.length then str else padSpaces (n - str.length) ++ str

/-- The scan loop of `_getFileLineFunc` (index.js lines 246-255).  `remaining`
is `stack.drop i`, so the recursion is structural; when the loop exhausts the
stack, `stackIter` equals `stack.length` and the source returns
`stack[stackIter]` — an out-of-bounds read, modelled by `stack.get? i`, which
yields the JavaScript value `undefined`. -/
def scanAux (stack : List Frame) (firstFile : String) (s : LogState) :
    List Frame → Nat → FLFResult
  | [], i =>
    match stack.get? i with
    | some f => FLFResult.frame f
    | none => FLFResult.undef
  | f :: rest, i =>
    if firstFile ≠ f.file then
      FLFResult.site
        { fileFunc := rpad (f.file ++ " " ++ f.func) s._fileFuncPad
        , line := lpad f.line s._linePad }
    else scanAux stack firstFile s rest (i + 1)

/-- `module.exports._getFileLineFunc` (index.js lines 238-262), as a function
of the parsed stack (`_getStackTrace` reads the runtime stack, which the
embedding takes as a parameter).  An empty stack makes `stack[0].file` throw;
the catch block prints the exception and rethrows it, so the error still
escapes. -/
def _getFileLineFunc (s : LogState) (stack : List Frame) : Except String FLFResult :=
  match stack with
  | [] => Except.error "TypeError: Cannot read property of undefined"
  | first :: rest => Except.ok (scanAux stack first.file s rest 1)

/-- The JavaScript comparison `lv <= threshold` on index.js lines 218, 224,
231: when the threshold property is `undefined` the comparison is `NaN`-like
and yields `false`. -/
def leOpt (lv : Nat) : Option Nat → Bool
  | some t => decide (lv ≤ t)
  | none => false

/-- `module.exports._doLog` (index.js lines 210-236): three independent sink
blocks, none of which is short-circuited by another.  `console.log` /
`console.error` writes are appended to `consoleOut` / `consoleErr`. -/
def _doLog (logLevel message : String) (s : LogState) :
    Except (String × LogState) LogState := do
  let s ← if s._enableQueue = some true then do
      let s := if s._queue = none then { s with _queue := some [] } else s
      match _getIntLevel logLevel with
      | Except.ok lv =>
        pure (if leOpt lv s._queueLevel then
          { s with _queue := s._queue.map (fun q => q ++ [message]) } else s)
      | Except.error e => Except.error (e, s)
    else pure s
  let s ← if s._enableStdout = some true then
      match _getIntLevel logLevel with
      | Except.ok lv =>
        pure (if leOpt lv s._stdoutLevel then
          { s with consoleOut := s.consoleOut ++ [message] } else s)
      | Except.error e => Except.error (e, s)
    else pure s
  if s._enableStderr = some true then
    match _getIntLevel logLevel with
    | Except.ok lv =>
      pure (if leOpt lv s._stderrLevel then
        { s with consoleErr := s.consoleErr ++ [message] } else s)
    | Except.error e => Except.error (e, s)
  else pure s

/-- The `.map(getSelf()._convertToString)` on index.js line 201; the first
argument whose conversion throws aborts the call. -/
def renderAll : List JsValue → LogState → Except (String × LogState) (List String)
  | [], _ => Except.ok []
  | a :: rest, s =>
    match _convertToString a with
    | Except.ok str => (renderAll rest s).map (fun l => str :: l)
    | Except.error e => Except.error (e, s)

/-- `logLevel[0]` under `printf("%s", -)`: the first character of the string,
or the text `undefined` for the empty string. -/
def charAt0 (s : String) : String :=
  if s.length = 0 then "undefined" else s.take 1

/-- The message head built on index.js line 205:
`printf("%s/%s(%s):", logLevel[0], fileLineFunc["fileFunc"], fileLineFunc["line"])`. -/
def mkHead (logLevel : String) (cs : CallSite) : String :=
  charAt0 logLevel ++ "/" ++ cs.fileFunc ++ "(" ++ cs.line ++ "):"

/-- The message-building part of `module.exports._log` (index.js lines
196-207): ensure defaults, render the arguments, resolve the call site and
format the line.  When `_getFileLineFunc` falls back to `stack[stack.length]`
(`undefined`), the property accesses `fileLineFunc["fileFunc"]` on line 205
throw a `TypeError`; on a raw frame object those properties are `undefined`
and `printf` renders them as the text `undefined`. -/
def buildMessage (logLevel : String) (args : List JsValue) (stack : List Frame)
    (s : LogState) : Except (String × LogState) (String × LogState) := do
  let s ← checkDefaults s
  let rendered ← renderAll args s
  match _getFileLineFunc s stack with
  | Except.error e => Except.error (e, s)
  | Except.ok (FLFResult.site cs) =>
    Except.ok (mkHead logLevel cs ++ " " ++ String.intercalate "," rendered, s)
  | Except.ok (FLFResult.frame _) =>
    Except.ok (charAt0 logLevel ++ "/undefined(undefined): "
      ++ String.intercalate "," rendered, s)
  | Except.ok FLFResult.undef =>
    Except.error ("TypeError: Cannot read property of undefined", s)

/-- `module.exports._log` (index.js lines 196-208). -/
def _log (logLevel : String) (args : List JsValue) (stack : List Frame)
    (s : LogState) : Except (String × LogState) LogState :=
  match buildMessage logLevel args stack s with
  | Except.ok (msg, s1) => _doLog logLevel msg s1
  | Except.error e => Except.error e

/-- `module.exports.F` (index.js lines 107-109). -/
def F (args : List JsValue) (stack : List Frame) (s : LogState) :
    Except (String × LogState) LogState := _log "Fatal" args stack s

/-- `module.exports.E` (index.js lines 111-113). -/
def E (args : List JsValue) (stack : List Frame) (s : LogState) :
    Except (String × LogState) LogState := _log "Error" args stack s

/-- `module.exports.W` (index.js lines 115-117). -/
def W (args : List JsValue) (stack : List Frame) (s : LogState) :
    Except (String × LogState) LogState := _log "Warn" args stack s

/-- `module.exports.I` (index.js lines 119-121). -/
def I (args : List JsValue) (stack : List Frame) (s : LogState) :
    Except (String × LogState) LogState := _log "Info" args stack s

/-- `module.exports.D` (index.js lines 123-125). -/
def D (args : List JsValue) (stack : List Frame) (s : LogState) :
    Except (String × LogState) LogState := _log "Debug" args stack s

/-- `module.exports.T` (index.js lines 127-129). -/
def T (args : List JsValue) (stack : List Frame) (s : LogState) :
    Except (String × LogState) LogState := _log "Trace" args stack s

/-- The six entry points with their level strings, for properties quantified
over all of them. -/
def entryPoints :
    List (String × (List JsValue → List Frame → LogState →
      Except (String × LogState) LogState)) :=
  [("Fatal", F), ("Error", E), ("Warn", W), ("Info", I), ("Debug", D), ("Trace", T)]

/-- A sequence of dispatches, as performed by consecutive log calls. -/
def dispatchAll : List (String × String) → LogState →
    Except (String × LogState) LogState
  | [], s => Except.ok s
  | (l, m) :: rest, s => (_doLog l m s).bind (dispatchAll rest)

/-- `n` consecutive `pop()` calls, collecting the returned strings in call
order. -/
def popN : Nat → LogState → List String × LogState
  | 0, s => ([], s)
  | n + 1, s =>
    let p := pop s
    let q := popN n p.2
    (p.1 :: q.1, q.2)

theorem getIntLevel_debug : _getIntLevel "Debug" = Except.ok 4 := rfl

/-- One dispatch, described by a single equation: each sink receives the
message exactly when its enabled flag is `true` and the message rank passes
the sink's threshold comparison; the three effects land in one final state. -/
theorem doLog_eq (logLevel message : String) (s : LogState) (r : Nat)
    (h : _getIntLevel logLevel = Except.ok r) :
    _doLog logLevel message s = Except.ok
      { s with
        _queue := if s._enableQueue = some true then
            some (s._queue.getD [] ++
              (if leOpt r s._queueLevel = true then [message] else []))
          else s._queue
      , consoleOut := s.consoleOut ++
          (if s._enableStdout = some true ∧ leOpt r s._stdoutLevel = true
           then [message] else [])
      , consoleErr := s.consoleErr ++
          (if s._enableStderr = some true ∧ leOpt r s._stderrLevel = true
           then [message] else []) } := by
  rcases s with ⟨eso, sol, tso, ese, sel, tse, eq, ql, tq, ffp, lp, qv, co, ce⟩
  by_cases hq : eq = some true <;>
    by_cases ho : eso = some true <;>
    by_cases he : ese = some true <;>
    rcases hQ : qv with _ | q <;>
    cases hlq : leOpt r ql <;>
    cases hlo : leOpt r sol <;>
    cases hle : leOpt r sel <;>
    simp [_doLog, h, hq, ho, he, hQ, hlq, hlo, hle, bind, Except.bind, pure,
      Except.pure]

/-- C1: for each of the three sinks independently, a dispatch of a message at
a valid level of rank `r` performs that sink's action — append to the queue,
write to stdout, write to stderr — if and only if the sink's enabled flag is
`true` and the rank comparison `leOpt` against the sink's threshold succeeds.
All three checks are evaluated in the single dispatch: the one final state
`s'` carries all three effects simultaneously, so queue capture and console
output are never mutually exclusive. -/
theorem dispatch_sink_iff (s : LogState) (lvl msg : String) (r : Nat)
    (h : _getIntLevel lvl = Except.ok r) :
    ∃ s', _doLog lvl msg s = Except.ok s' ∧
      s'._queue.getD [] = s._queue.getD [] ++
        (if s._enableQueue = some true ∧ leOpt r s._queueLevel = true
         then [msg] else []) ∧
      s'.consoleOut = s.consoleOut ++
        (if s._enableStdout = some true ∧ leOpt r s._stdoutLevel = true
         then [msg] else []) ∧
      s'.consoleErr = s.consoleErr ++
        (if s._enableStderr = some true ∧ leOpt r s._stderrLevel = true
         then [msg] else []) := by
  refine ⟨_, doLog_eq lvl msg s r h, ?_, rfl, rfl⟩
  by_cases hq : s._enableQueue = some true <;>
    cases hlq : leOpt r s._queueLevel <;> simp [hq, hlq]

/-- Witness for C1: with the queue enabled at threshold Debug (4), stdout
enabled at threshold Warn (2) and stderr explicitly disabled, dispatching an
`Info` message (rank 3) appends it to the queue, writes nothing to stdout
(3 > 2) and nothing to stderr — queue capture and console filtering are
decided independently inside one dispatch. -/
theorem dispatch_sink_iff_witness :
    ∃ s', _doLog "Info" "m"
        { initState with
          _enableQueue := some true, _queueLevel := some 4
        , _enableStdout := some true, _stdoutLevel := some 2
        , _enableStderr := some false, _stderrLevel := some 4 } = Except.ok s' ∧
      s'._queue.getD [] = ["m"] ∧ s'.consoleOut = [] ∧ s'.consoleErr = [] := by
  obtain ⟨s', h1, h2, h3, h4⟩ := dispatch_sink_iff
    { initState with
      _enableQueue := some true, _queueLevel := some 4
    , _enableStdout := some true, _stdoutLevel := some 2
    , _enableStderr := some false, _stderrLevel := some 4 } "Info" "m" 3 rfl
  exact ⟨s', h1, by simpa using h2, by simpa using h3, by simpa using h4⟩

/-- C2 (evaluation of the code at the failing input): after an explicit
`enableStdout("Error")` has set the stdout threshold to rank 1,
`disableStdout` resets the threshold to Debug (rank 4) even though a
threshold had been set, because its guard reads the never-assigned property
`stdOutLevel` instead of `_stdoutLevel`; the same happens for stderr
(previous threshold 0) and the queue (previous threshold 2). -/
theorem disable_overwrites_threshold :
    enableStdout "Error" initState = Except.ok
      { initState with _enableStdout := some true, _stdoutLevel := some 1 } ∧
    disableStdout
        { initState with _enableStdout := some true, _stdoutLevel := some 1 } =
      { initState with _enableStdout := some false, _stdoutLevel := some 4 } ∧
    disableStderr
        { initState with _enableStderr := some true, _stderrLevel := some 0 } =
      { initState with _enableStderr := some false, _stderrLevel := some 4 } ∧
    disableQueue
        { initState with _enableQueue := some true, _queueLevel := some 2 } =
      { initState with _enableQueue := some false, _queueLevel := some 4 } :=
  ⟨rfl, rfl, rfl, rfl⟩

/-- C3 (counterexample): `enableStdout` with an unrecognized level name does
not leave the sink's state unchanged — the enabled flag was assigned `true`
before the rank lookup threw, and the resulting state differs from the
initial one. -/
theorem enable_invalid_mutates :
    enableStdout "Bogus" initState =
      Except.error ("Invalid log level supplied: Bogus",
        { initState with _enableStdout := some true }) ∧
    ({ initState with _enableStdout := some true } : LogState) ≠ initState :=
  ⟨rfl, by decide⟩

/-- C3 (amended): for every state and every level name whose rank lookup
fails, each sink's enable operation fails with the `InvalidLevelError`
message and leaves the threshold (and every other field) unchanged, but the
enabled flag has already been set to `true` when the lookup fails and remains
set. -/
theorem enable_invalid_sets_flag (s : LogState) (lvl e : String)
    (h : _getIntLevel lvl = Except.error e) :
    enableStdout lvl s =
      Except.error (e, { s with _enableStdout := some true }) ∧
    enableStderr lvl s =
      Except.error (e, { s with _enableStderr := some true }) ∧
    enableQueue lvl s =
      Except.error (e, { s with _enableQueue := some true }) := by
  simp [enableStdout, enableStderr, enableQueue, h]

/-- Witness for C3 (amended) at the level name "Bogus" and the fresh module
state. -/
theorem enable_invalid_sets_flag_witness :
    enableStdout "Bogus" initState =
      Except.error ("Invalid log level supplied: Bogus",
        { initState with _enableStdout := some true }) ∧
    enableStderr "Bogus" initState =
      Except.error ("Invalid log level supplied: Bogus",
        { initState with _enableStderr := some true }) ∧
    enableQueue "Bogus" initState =
      Except.error ("Invalid log level supplied: Bogus",
        { initState with _enableQueue := some true }) :=
  enable_invalid_sets_flag initState "Bogus" "Invalid log level supplied: Bogus" rfl

/-- C5 (counterexample): rendering the JavaScript `null` value does not
return the empty string — the call throws, because `null` fails the
`arg != null` guard and reaches the `Unsupported type` branch. -/
theorem render_null_fails : (_convertToString JsValue.null).isOk = false := rfl

/-- C5 (amended): the renderer returns the empty string, raising no error,
for the `undefined` value only; for the `null` value the call instead fails
with the `Unsupported type` `TypeError`. -/
theorem render_undef_empty :
    _convertToString JsValue.undef = Except.ok "" ∧
    ∃ e, _convertToString JsValue.null = Except.error e :=
  ⟨rfl, _, rfl⟩

/-- C6 (evaluation of the code at the failing input): on a stack whose frames
all share the first frame's file, the scan exhausts the stack and
`_getFileLineFunc` returns `stack[stack.length]` — the out-of-bounds read
yields the JavaScript value `undefined`, not the last frame. -/
theorem scan_exhausted_returns_undefined :
    _getFileLineFunc initState
      [{ file := "index.js", func := "f", line := "10" },
       { file := "index.js", func := "g", line := "20" }] =
      Except.ok FLFResult.undef ∧
    FLFResult.undef ≠
      FLFResult.frame { file := "index.js", func := "g", line := "20" } :=
  ⟨rfl, by decide⟩

/-- C10: `peek` returns its result with the state untouched; `pop` and
`emptyQueue` may change only the `_queue` field — every enable flag, every
threshold, the padding configuration and the console transcripts are
unchanged; `pop` on a non-empty queue removes exactly the first element,
keeping the remaining elements in order, and on an empty or uninitialized
queue returns the empty string without any change. -/
theorem queue_ops_frame (s : LogState) :
    (peek s).2 = s ∧
    (∃ q, (pop s).2 = { s with _queue := q }) ∧
    (∃ q, emptyQueue s = { s with _queue := q }) ∧
    (∀ m rest, s._queue = some (m :: rest) →
      pop s = (m, { s with _queue := some rest })) ∧
    ((s._queue = none ∨ s._queue = some []) → pop s = ("", s)) := by
  rcases hq : s._queue with _ | ⟨_ | ⟨m, rest⟩⟩ <;>
    simp [peek, pop, emptyQueue, hq] <;>
    exact ⟨s._queue, rfl⟩

/-- Witness for C10 on a queue holding two messages. -/
theorem queue_ops_frame_witness :
    (peek { initState with _queue := some ["a", "b"] }).2 =
      { initState with _queue := some ["a", "b"] } ∧
    pop { initState with _queue := some ["a", "b"] } =
      ("a", { initState with _queue := some ["b"] }) := by
  have h := queue_ops_frame { initState with _queue := some ["a", "b"] }
  exact ⟨h.1, h.2.2.2.1 "a" ["b"] rfl⟩

/-- C4: when none of the three sinks has ever been enabled or disabled (the
three enabled flags are unset — and the never-assigned properties read by the
disable guards are unset, as they are in every reachable state), the
defaulting run at the start of the first log call installs exactly: stderr
enabled at threshold Debug (rank 4), stdout disabled, queue disabled, and
padding widths (30, 5). -/
theorem checkDefaults_untouched (s : LogState)
    (h1 : s._enableStdout = none) (h2 : s._enableStderr = none)
    (h3 : s._enableQueue = none)
    (t1 : s.stdOutLevel = none) (t2 : s.stdErrLevel = none)
    (t3 : s.queueLevel = none) :
    checkDefaults s = Except.ok
      { s with
        _enableStdout := some false, _stdoutLevel := some 4
      , _enableStderr := some true, _stderrLevel := some 4
      , _enableQueue := some false, _queueLevel := some 4
      , _fileFuncPad := some 30, _linePad := some 5 } := by
  rcases s with ⟨eso, sol, tso, ese, sel, tse, eq, ql, tq, ffp, lp, qv, co, ce⟩
  dsimp only at h1 h2 h3 t1 t2 t3
  subst h1; subst h2; subst h3; subst t1; subst t2; subst t3
  rfl

/-- Witness for C4: the defaulting outcome on the fresh module state. -/
theorem checkDefaults_untouched_witness :
    checkDefaults initState = Except.ok
      { initState with
        _enableStdout := some false, _stdoutLevel := some 4
      , _enableStderr := some true, _stderrLevel := some 4
      , _enableQueue := some false, _queueLevel := some 4
      , _fileFuncPad := some 30, _linePad := some 5 } :=
  checkDefaults_untouched initState rfl rfl rfl rfl rfl rfl

/-- C8: the defaulting logic is idempotent — running `checkDefaults` on its
own output reproduces that output exactly — and, on every state reachable
through explicit configuration calls (characterized by: the never-assigned
guard properties are unset; a disabled sink has a threshold; a sink with a
threshold has a flag), it never changes an enable flag or threshold that was
already set. -/
theorem checkDefaults_idempotent (s : LogState)
    (t1 : s.stdOutLevel = none) (t2 : s.stdErrLevel = none)
    (t3 : s.queueLevel = none) :
    ∃ s', checkDefaults s = Except.ok s' ∧ checkDefaults s' = Except.ok s' ∧
      (((s._enableStdout = some false → s._stdoutLevel ≠ none) ∧
        (s._enableStderr = some false → s._stderrLevel ≠ none) ∧
        (s._enableQueue = some false → s._queueLevel ≠ none) ∧
        (s._stdoutLevel ≠ none → s._enableStdout ≠ none) ∧
        (s._stderrLevel ≠ none → s._enableStderr ≠ none) ∧
        (s._queueLevel ≠ none → s._enableQueue ≠ none)) →
       ((∀ b, s._enableStdout = some b → s'._enableStdout = some b) ∧
        (∀ l, s._stdoutLevel = some l → s'._stdoutLevel = some l) ∧
        (∀ b, s._enableStderr = some b → s'._enableStderr = some b) ∧
        (∀ l, s._stderrLevel = some l → s'._stderrLevel = some l) ∧
        (∀ b, s._enableQueue = some b → s'._enableQueue = some b) ∧
        (∀ l, s._queueLevel = some l → s'._queueLevel = some l))) := by
  rcases s with ⟨eso, sol, tso, ese, sel, tse, eq, ql, tq, ffp, lp, qv, co, ce⟩
  dsimp only at t1 t2 t3
  subst t1; subst t2; subst t3
  rcases eso with _ | b1 <;> rcases sol with _ | l1 <;>
    rcases ese with _ | b2 <;> rcases sel with _ | l2 <;>
    rcases eq with _ | b3 <;> rcases ql with _ | l3 <;>
    exact ⟨_, rfl, rfl, by
      intro hinv
      simp_all [disableStdout, disableStderr, disableQueue, enableStdout,
        enableStderr, enableQueue, setPadding, _getIntLevel, levelScan,
        _levels, Except.toOption]⟩

/-- Witness for C8 at a state with stdout explicitly enabled at Fatal,
stderr untouched, and the queue explicitly disabled. -/
theorem checkDefaults_idempotent_witness :
    ∃ s', checkDefaults
        { initState with
          _enableStdout := some true, _stdoutLevel := some 0
        , _enableQueue := some false, _queueLevel := some 4 } = Except.ok s' ∧
      checkDefaults s' = Except.ok s' ∧ s'._stdoutLevel = some 0 := by
  obtain ⟨s', h1, h2, h3⟩ := checkDefaults_idempotent
    { initState with
      _enableStdout := some true, _stdoutLevel := some 0
    , _enableQueue := some false, _queueLevel := some 4 } rfl rfl rfl
  refine ⟨s', h1, h2, ?_⟩
  exact (h3 (by decide)).2.1 0 rfl

/-- A single dispatch with the queue enabled and the rank within the
threshold appends the message to the queue and leaves the queue
configuration untouched. -/
theorem doLog_queue_step (l m : String) (s : LogState) (r : Nat)
    (hr : _getIntLevel l = Except.ok r)
    (h1 : s._enableQueue = some true) (hq : leOpt r s._queueLevel = true) :
    ∃ t, _doLog l m s = Except.ok t ∧
      t._queue.getD [] = s._queue.getD [] ++ [m] ∧
      t._enableQueue = s._enableQueue ∧ t._queueLevel = s._queueLevel := by
  refine ⟨_, doLog_eq l m s r hr, ?_, rfl, rfl⟩
  simp [h1, hq]

/-- Dispatching a list of in-threshold messages with the queue enabled
appends them to the queue in order and preserves the queue configuration. -/
theorem dispatchAll_queue (calls : List (String × String)) :
    ∀ s tql, s._enableQueue = some true → s._queueLevel = some tql →
    (∀ lm ∈ calls, ∃ r, _getIntLevel lm.1 = Except.ok r ∧ r ≤ tql) →
    ∃ s1, dispatchAll calls s = Except.ok s1 ∧
      s1._queue.getD [] = s._queue.getD [] ++ calls.map Prod.snd ∧
      s1._enableQueue = some true ∧ s1._queueLevel = some tql := by
  induction calls with
  | nil =>
    intro s tql h1 h2 _
    exact ⟨s, rfl, by simp, h1, h2⟩
  | cons lm rest ih =>
    intro s tql h1 h2 hc
    obtain ⟨l, m⟩ := lm
    obtain ⟨r, hr, hle⟩ := hc (l, m) (List.mem_cons_self _ _)
    have hql : leOpt r s._queueLevel = true := by
      rw [h2]; simpa [leOpt] using hle
    obtain ⟨t, ht, htq, hte, htl⟩ := doLog_queue_step l m s r hr h1 hql
    obtain ⟨s1, hd, hqq, he1, he2⟩ := ih t tql (hte.trans h1) (htl.trans h2)
      (fun x hx => hc x (List.mem_cons_of_mem _ hx))
    refine ⟨s1, ?_, ?_, he1, he2⟩
    · simp only [dispatchAll]
      rw [ht]
      simpa [Except.bind] using hd
    · rw [hqq, htq]
      simp

/-- `emptyQueue` empties the queue (in the `getD []` contents reading) and
leaves the queue configuration untouched. -/
theorem emptyQueue_fields (s : LogState) :
    (emptyQueue s)._enableQueue = s._enableQueue ∧
    (emptyQueue s)._queueLevel = s._queueLevel ∧
    (emptyQueue s)._queue.getD [] = [] := by
  rcases hq : s._queue <;> simp [emptyQueue, hq]

/-- Popping as many times as the queue holds returns exactly the held
messages in order and leaves an empty queue, on which both `pop` and `peek`
return the empty string. -/
theorem popN_drains (msgs : List String) :
    ∀ s, s._queue.getD [] = msgs →
    ∃ s2, popN msgs.length s = (msgs, s2) ∧ s2._queue.getD [] = [] ∧
      pop s2 = ("", s2) ∧ (peek s2).1 = "" := by
  induction msgs with
  | nil =>
    intro s h
    refine ⟨s, rfl, h, ?_, ?_⟩ <;> rcases hq : s._queue with _ | q
    · simp [pop, hq]
    · rw [hq] at h
      simp at h
      subst h
      simp [pop, hq]
    · simp [peek, hq]
    · rw [hq] at h
      simp at h
      subst h
      simp [peek, hq]
  | cons m ms ih =>
    intro s h
    rcases hq : s._queue with _ | q
    · rw [hq] at h
      simp at h
    · rw [hq] at h
      simp at h
      subst h
      obtain ⟨s2, h1, h2, h3, h4⟩ := ih { s with _queue := some ms } (by simp)
      refine ⟨s2, ?_, h2, h3, h4⟩
      simp [popN, pop, hq, h1]

/-- C7: with the queue sink enabled at a threshold, emptying the queue, then
dispatching N log calls whose level ranks are within that threshold, then
popping N times returns exactly the N messages in their original
chronological order, after which both `pop` and `peek` return the empty
string. -/
theorem queue_roundtrip (s : LogState) (tql : Nat)
    (calls : List (String × String))
    (hen : s._enableQueue = some true) (hlev : s._queueLevel = some tql)
    (hcalls : ∀ lm ∈ calls, ∃ r, _getIntLevel lm.1 = Except.ok r ∧ r ≤ tql) :
    ∃ s1 s2, dispatchAll calls (emptyQueue s) = Except.ok s1 ∧
      popN calls.length s1 = (calls.map Prod.snd, s2) ∧
      pop s2 = ("", s2) ∧ (peek s2).1 = "" := by
  obtain ⟨hf1, hf2, hf3⟩ := emptyQueue_fields s
  obtain ⟨s1, hd, hq, _, _⟩ := dispatchAll_queue calls (emptyQueue s) tql
    (hf1.trans hen) (hf2.trans hlev) hcalls
  rw [hf3] at hq
  have hq' : s1._queue.getD [] = calls.map Prod.snd := by simpa using hq
  obtain ⟨s2, hp, _, hpop, hpeek⟩ := popN_drains (calls.map Prod.snd) s1 hq'
  refine ⟨s1, s2, hd, ?_, hpop, hpeek⟩
  simpa using hp

/-- Witness for C7: two messages logged at Info and Debug with the queue
enabled at Debug (rank 4) round-trip through the queue in order. -/
theorem queue_roundtrip_witness :
    ∃ s1 s2, dispatchAll [("Info", "a"), ("Debug", "b")]
        (emptyQueue { initState with
          _enableQueue := some true, _queueLevel := some 4 }) =
        Except.ok s1 ∧
      popN 2 s1 = (["a", "b"], s2) ∧
      pop s2 = ("", s2) ∧ (peek s2).1 = "" := by
  refine queue_roundtrip
    { initState with _enableQueue := some true, _queueLevel := some 4 } 4
    [("Info", "a"), ("Debug", "b")] rfl rfl ?_
  intro lm hm
  fin_cases hm
  · exact ⟨3, rfl, by decide⟩
  · exact ⟨4, rfl, by decide⟩

/-- `checkDefaults` never throws: its only fallible calls look up the level
name "Debug", which is always recognized. -/
theorem checkDefaults_isOk (s : LogState) :
    ∃ s', checkDefaults s = Except.ok s' := by
  rcases s with ⟨eso, sol, tso, ese, sel, tse, eq, ql, tq, ffp, lp, qv, co, ce⟩
  rcases eso <;> rcases ese <;> rcases eq <;> rcases sol <;> rcases sel <;>
    rcases ql <;> rcases tso <;> rcases tse <;> rcases tq <;> exact ⟨_, rfl⟩

/-- When some frame of the remaining stack has a file different from the
first frame's file, the scan returns a padded call site. -/
theorem scanAux_finds (stack : List Frame) (firstFile : String) (s : LogState) :
    ∀ remaining i, (∃ fr ∈ remaining, fr.file ≠ firstFile) →
      ∃ cs, scanAux stack firstFile s remaining i = FLFResult.site cs := by
  intro remaining
  induction remaining with
  | nil =>
    intro i h
    simp at h
  | cons f rest ih =>
    intro i h
    by_cases hf : firstFile = f.file
    · have h' : ∃ fr ∈ rest, fr.file ≠ firstFile := by
        rcases h with ⟨fr, hm, hne⟩
        rcases List.mem_cons.mp hm with rfl | hm'
        · exact absurd hf.symm hne
        · exact ⟨fr, hm', hne⟩
      obtain ⟨cs, hcs⟩ := ih (i + 1) h'
      refine ⟨cs, ?_⟩
      simp only [scanAux]
      rw [if_neg (fun hn => hn hf)]
      exact hcs
    · refine ⟨{ fileFunc := rpad (f.file ++ " " ++ f.func) s._fileFuncPad
              , line := lpad f.line s._linePad }, ?_⟩
      simp only [scanAux]
      rw [if_pos hf]

/-- A zero-argument `_log` call at a valid level, from a call site whose
stack contains a frame outside the facade's file, succeeds and dispatches a
message that is exactly the call-site head followed by a single space. -/
theorem log_zero_args (lvl : String) (r : Nat)
    (hlvl : _getIntLevel lvl = Except.ok r)
    (s : LogState) (first : Frame) (rest : List Frame) (fr : Frame)
    (hfr : fr ∈ rest) (hne : fr.file ≠ first.file) :
    ∃ cs s1 s2, buildMessage lvl [] (first :: rest) s =
        Except.ok (mkHead lvl cs ++ " ", s1) ∧
      _log lvl [] (first :: rest) s = Except.ok s2 := by
  obtain ⟨sd, hsd⟩ := checkDefaults_isOk s
  obtain ⟨cs, hcs⟩ := scanAux_finds (first :: rest) first.file sd rest 1
    ⟨fr, hfr, hne⟩
  have hempty : String.intercalate "," ([] : List String) = "" := rfl
  have hbm : buildMessage lvl [] (first :: rest) s =
      Except.ok (mkHead lvl cs ++ " ", sd) := by
    simp [buildMessage, hsd, renderAll, _getFileLineFunc, hcs, bind,
      Except.bind, Except.pure, pure, hempty]
  obtain ⟨s2, hd2⟩ : ∃ s2, _doLog lvl (mkHead lvl cs ++ " ") sd = Except.ok s2 :=
    ⟨_, doLog_eq lvl _ sd r hlvl⟩
  exact ⟨cs, sd, s2, hbm, by simp [_log, hbm, hd2]⟩

/-- C9: each of the six logging entry points, called with zero arguments
from a call site whose stack resolves (some frame lies outside the facade's
file), does not fail: the joined argument string is empty and the dispatched
message is exactly the call-site head followed by a single space. -/
theorem entry_zero_args
    (ep : String × (List JsValue → List Frame → LogState →
      Except (String × LogState) LogState))
    (hep : ep ∈ entryPoints) (s : LogState) (first : Frame)
    (rest : List Frame) (fr : Frame) (hfr : fr ∈ rest)
    (hne : fr.file ≠ first.file) :
    ∃ cs s1 s2, buildMessage ep.1 [] (first :: rest) s =
        Except.ok (mkHead ep.1 cs ++ " ", s1) ∧
      ep.2 [] (first :: rest) s = Except.ok s2 := by
  simp only [entryPoints, List.mem_cons, List.not_mem_nil, or_false] at hep
  rcases hep with rfl | rfl | rfl | rfl | rfl | rfl
  · exact log_zero_args "Fatal" 0 rfl s first rest fr hfr hne
  · exact log_zero_args "Error" 1 rfl s first rest fr hfr hne
  · exact log_zero_args "Warn" 2 rfl s first rest fr hfr hne
  · exact log_zero_args "Info" 3 rfl s first rest fr hfr hne
  · exact log_zero_args "Debug" 4 rfl s first rest fr hfr hne
  · exact log_zero_args "Trace" 5 rfl s first rest fr hfr hne

/-- Witness for C9: a zero-argument `F` call from a two-frame stack whose
second frame lies in a different file. -/
theorem entry_zero_args_witness :
    ∃ cs s1 s2, buildMessage "Fatal" []
        [{ file := "index.js", func := "_log", line := "203" },
         { file := "app.js", func := "main", line := "7" }] initState =
        Except.ok (mkHead "Fatal" cs ++ " ", s1) ∧
      F [] [{ file := "index.js", func := "_log", line := "203" },
            { file := "app.js", func := "main", line := "7" }] initState =
        Except.ok s2 :=
  entry_zero_args ("Fatal", F) (List.mem_cons_self _ _) initState
    { file := "index.js", func := "_log", line := "203" }
    [{ file := "app.js", func := "main", line := "7" }]
    { file := "app.js", func := "main", line := "7" }
    (List.mem_cons_self _ _) (by decide)

